import Mathlib

/-!
Verification development for the gohm HTTP request-handling supervisor
(karrick/gohm).  The definitions below are a shallow embedding of the v2
core: the buffering `responseWriter` capture object (src/unnamed/part_024,
first revision: `handlerComplete`, `handlerError`, `Write`, `WriteHeader`),
the supervisor `New` (src/v2/gohm.go), the access-log format compiler and
its emitters (src/v2/log.go), the status `Counters` (src/unnamed/part_008),
and the legacy `LogStatusBitmaskWithFormat` logging middleware (src/log.go).

Modelling conventions:
* Machine integers are `Nat` with explicit `% 2^64` / `% 2^32` where Go's
  fixed-width arithmetic can wrap (counter increments, the log bitmask).
* Byte slices are `List Nat` (byte values); strings iterated by Go's
  `for _, rune := range s` are modelled as `List Char` (Go decodes UTF-8
  into runes; `appendRune` re-encodes, so for valid UTF-8 the byte-level
  scanner of src/v2/log.go is exactly a rune-level scanner).
* The real `http.ResponseWriter` underneath the capture object is a state
  record (`RealSink`) recording header adds, `WriteHeader` calls and `Write`
  calls; a sink whose `failMsg` is set models a broken client connection:
  every `Write` fails with that message, as in Go where a dead connection
  keeps returning errors.
* Goroutine interleaving is resolved into the single `Outcome` of the
  three-way select of `New`; the downstream handler is a list of
  header/status/body operations applied to the capture object.
* Wall-clock times are abstract `Nat` ticks; calendar rendering of
  timestamps (apache/ISO-8601 formats) is abstracted, no claim depends
  on it.
-/

namespace Gohm

/-- Modulus of Go's `uint64` arithmetic. -/
def U64 : Nat := 2 ^ 64

/-- Modulus of Go's `uint32` arithmetic. -/
def U32 : Nat := 2 ^ 32

/-- The real response sink (`http.ResponseWriter` handed to the supervisor
by `net/http`).  `headers` records `Header().Add` calls, `statuses` records
`WriteHeader` calls in order, `chunks` records the payload of each
successful `Write`, `writeCalls` counts every `Write` attempt.  When
`failMsg = some m`, every `Write` fails with message `m` and accepts no
bytes (broken client connection). -/
structure RealSink where
  headers : List (String × String) := []
  statuses : List Nat := []
  chunks : List (List Nat) := []
  writeCalls : Nat := 0
  failMsg : Option String := none
  deriving DecidableEq

/-- `h.Add(k, v)` on the real sink's header map. -/
def sinkAddHeader (w : RealSink) (k v : String) : RealSink :=
  { w with headers := w.headers ++ [(k, v)] }

/-- `hrw.WriteHeader(status)` on the real sink. -/
def sinkWriteHeader (w : RealSink) (status : Nat) : RealSink :=
  { w with statuses := w.statuses ++ [status] }

/-- `hrw.Write(data)` on the real sink: returns the new sink state, the
byte count written and the error, mirroring Go's `(n int, err error)`. -/
def sinkWrite (w : RealSink) (data : List Nat) : RealSink × Nat × Option String :=
  match w.failMsg with
  | none => ({ w with chunks := w.chunks ++ [data], writeCalls := w.writeCalls + 1 },
             data.length, none)
  | some m => ({ w with writeCalls := w.writeCalls + 1 }, 0, some m)

/-- The status code the client observes: the last `WriteHeader` call on the
real sink, or 200 when none was made — `net/http` commits an implicit 200
on a response whose handler never called `WriteHeader` (the standard
library contract the spec's "first write without explicit status commits
200" refers to). -/
def deliveredStatus (w : RealSink) : Nat :=
  (w.statuses.getLast?).getD 200

/-- All body bytes the client received, in order. -/
def sinkBody (w : RealSink) : List Nat :=
  w.chunks.flatten

/-- UTF-8 bytes of a Go string. -/
def strBytes (s : String) : List Nat :=
  s.toUTF8.toList.map (fun b => b.toNat)

/-- The buffered response capture object of src/unnamed/part_024 (struct
`responseWriter`): pending header map (`none` until `Header()` is first
called, like the nil Go map), pending status (0 = unset), in-memory body
buffer, begin/end tick timestamps (Go field names `begin`/`end`; `end` is
a Lean keyword so the fields are `beginT`/`endT`), captured error message,
snapshot of logged request headers, and the byte count recorded at flush. -/
structure responseWriter where
  beginT : Nat := 0
  endT : Nat := 0
  error : String := ""
  loggedRequestHeaders : List (String × String) := []
  body : List Nat := []
  header : Option (List (String × String)) := none
  bytesWritten : Nat := 0
  status : Nat := 0
  deriving DecidableEq

/-- One operation the downstream handler performs against the capture
object handed to it in place of the real sink: `Write` (buffered, always
succeeds — `bytes.Buffer.Write` cannot fail), `WriteHeader` (records the
status; each call overwrites the previous one), or a `Header().Add`. -/
inductive HandlerOp where
  | write (blob : List Nat)
  | writeHeader (status : Nat)
  | addHeader (k v : String)
  deriving DecidableEq

/-- Effect of one handler operation on the capture object, translated from
the `Write` / `WriteHeader` / `Header` methods of src/unnamed/part_024. -/
def applyOp (grw : responseWriter) : HandlerOp → responseWriter
  | .write blob => { grw with body := grw.body ++ blob }
  | .writeHeader status => { grw with status := status }
  | .addHeader k v => { grw with header := some (grw.header.getD [] ++ [(k, v)]) }

/-- The downstream handler's full run against the capture object. -/
def runHandler (ops : List HandlerOp) (grw : responseWriter) : responseWriter :=
  ops.foldl applyOp grw

/-- The status of the last `writeHeader` operation, if any. -/
def lastWH : List HandlerOp → Option Nat
  | [] => none
  | op :: ops =>
    match lastWH ops with
    | some s => some s
    | none =>
      match op with
      | .writeHeader s => some s
      | _ => none

/-- Concatenation of all bytes the handler passed to `Write`, in order. -/
def concatWrites : List HandlerOp → List Nat
  | [] => []
  | op :: ops =>
    (match op with | .write blob => blob | _ => []) ++ concatWrites ops

/-- Copy the capture object's accumulated headers to the real sink (the
header loop at the top of `handlerComplete`; folding the empty list models
the `grw.header != nil` guard). -/
def addHeaders (w : RealSink) (hs : List (String × String)) : RealSink :=
  hs.foldl (fun acc kv => sinkAddHeader acc kv.1 kv.2) w

/-- `responseWriter.handlerComplete` of src/unnamed/part_024: copy headers
to the real sink; if no status was set record 200 for the log (letting
`net/http` send the implicit 200), otherwise forward the status; write the
buffered body; on a write error record that error's text and status 500
for the log (the write is not retried); finally record the byte count and
the end time. -/
def handlerComplete (grw : responseWriter) (w : RealSink) (now : Nat) :
    responseWriter × RealSink :=
  let w := addHeaders w (grw.header.getD [])
  let sw :=
    if grw.status = 0 then ({ grw with status := 200 }, w)
    else (grw, sinkWriteHeader w grw.status)
  let grw := sw.1
  let wr := sinkWrite sw.2 grw.body
  let grw :=
    match wr.2.2 with
    | some e => { grw with error := e, status := 500 }
    | none => grw
  ({ grw with bytesWritten := wr.2.1, endT := now }, wr.1)

/-- `http.Error` of the Go standard library: plain-text headers, the
status line, then the message followed by a newline, written directly to
the real sink. -/
def httpError (w : RealSink) (text : String) (code : Nat) : RealSink :=
  let w := sinkAddHeader w "Content-Type" "text/plain; charset=utf-8"
  let w := sinkAddHeader w "X-Content-Type-Options" "nosniff"
  let w := sinkWriteHeader w code
  (sinkWrite w (strBytes (text ++ "\n"))).1

/-- `responseWriter.handlerError` of src/unnamed/part_024: defer to
`http.Error` against the real sink, then save end time, message and status
for the log. -/
def handlerError (grw : responseWriter) (w : RealSink) (error : String)
    (code : Nat) (now : Nat) : responseWriter × RealSink :=
  ({ grw with endT := now, error := error, status := code }, httpError w error code)

/-- Which of the three completion sources won the select of `New`
(src/v2/gohm.go): normal handler return, a handler panic (already
converted to text by `serveWithPanicProtection` of src/unnamed/part_020),
or context cancellation carrying `ctx.Err()`'s text. -/
inductive Outcome where
  | completed
  | panicked (text : String)
  | cancelled (ctxErr : String)
  deriving DecidableEq

/-- The select block of `New` (src/v2/gohm.go lines 173-195), resolving
the race to exactly one terminal action on the real sink.  `ops` is what
the downstream handler executed against the capture object it was given
(all of it on normal completion; whatever it managed before panicking or
being abandoned otherwise).  `.error text` models the `panic(error)`
re-raise on the supervisor's thread when `AllowPanics` is set.  On
cancellation a brand-new capture object (keeping only `begin`) replaces
the one the handler can still reach, so the handler's operations are
applied to the abandoned object and drop out of the result. -/
def resolveRace (allowPanics : Bool) (outcome : Outcome) (ops : List HandlerOp)
    (grw0 : responseWriter) (w : RealSink) (now : Nat) :
    Except String (responseWriter × RealSink) :=
  match outcome with
  | .completed => .ok (handlerComplete (runHandler ops grw0) w now)
  | .panicked text =>
    if allowPanics then .error text
    else .ok (handlerError (runHandler ops grw0) w text 500 now)
  | .cancelled ctxErr =>
    .ok (handlerError { beginT := grw0.beginT } w ctxErr 503 now)

/-- Capture object of a resolved race (irrelevant default on re-panic). -/
def raceRW (r : Except String (responseWriter × RealSink)) : responseWriter :=
  match r with
  | .ok p => p.1
  | .error _ => {}

/-- Real-sink state of a resolved race; on re-panic the sink `w` it
started from is untouched. -/
def raceSink (r : Except String (responseWriter × RealSink)) (w : RealSink) : RealSink :=
  match r with
  | .ok p => p.2
  | .error _ => w

/-- The parts of `http.Request` the emitters read: method, URI, protocol,
remote address and the request-header multimap (first values only, which
is all the code reads). -/
structure Request where
  remoteAddr : String := ""
  method : String := ""
  proto : String := ""
  requestURI : String := ""
  headers : List (String × String) := []
  deriving DecidableEq

/-- `Header.Get`: first value for the name, "" when absent (Go's map zero
value; header-name canonicalization is outside the model). -/
def headerGet (hs : List (String × String)) (name : String) : String :=
  ((hs.find? (fun kv => kv.1 == name)).map Prod.snd).getD ""

/-- `http.StatusText` restricted to the codes this development exercises;
like the standard library it returns "" for an unknown code. -/
def statusText (code : Nat) : String :=
  if code = 200 then "OK"
  else if code = 403 then "Forbidden"
  else if code = 500 then "Internal Server Error"
  else if code = 503 then "Service Unavailable"
  else ""

/-- Apache-style calendar rendering of a timestamp, abstracted to the tick
value (no claim depends on calendar formatting). -/
def formatApacheTime (t : Nat) : String := toString t

/-- ISO-8601 calendar rendering of a timestamp, abstracted likewise. -/
def formatISO8601 (t : Nat) : String := toString t

/-- Fractional-second rendering of `end - begin`, abstracted to the tick
difference (no claim depends on the float formatting). -/
def formatDuration (b e : Nat) : String := toString (e - b)

/-- Index of the last occurrence of a character (`bytes.LastIndexByte` /
`strings.LastIndex` for a one-byte needle: for an ASCII needle such as
':' the byte index found by Go is a rune boundary, so the rune-level
index used here cuts the string at the same place). -/
def lastIndexChar : List Char → Char → Option Nat
  | [], _ => none
  | x :: xs, c =>
    match lastIndexChar xs c with
    | some i => some (i + 1)
    | none => if x = c then some 0 else none

/-- First half of `clientIPEmitter` (src/v2/log.go): strip the suffix
starting at the last colon, when there is one. -/
def stripPort (value : List Char) : List Char :=
  match lastIndexChar value ':' with
  | some colon => value.take colon
  | none => value

/-- Second half of `clientIPEmitter`: strip one enclosing pair of square
brackets when the value is longer than two characters and has both
(Go checks byte length and the first/last bytes; '[' and ']' are ASCII
and a bracket-enclosed value has byte length > 2 exactly when its rune
length is > 2, so the rune-level check agrees). -/
def stripBrackets (value : List Char) : List Char :=
  if value.length > 2 && value.head? == some '\x5b' && value.getLast? == some '\x5d' then
    (value.drop 1).dropLast
  else value

/-- `clientIPEmitter` of src/v2/log.go lines 200-212, as a function of the
request's remote address. -/
def clientIPEmitter (addr : String) : String :=
  String.mk (stripBrackets (stripPort addr.data))

/-- `clientPortEmitter` of src/v2/log.go: everything after the last colon,
or the whole address when there is none. -/
def clientPortEmitter (addr : String) : String :=
  match lastIndexChar addr.data ':' with
  | some colon => String.mk (addr.data.drop (colon + 1))
  | none => addr

/-- The compiled emitters of src/v2/log.go, deeply embedded: the `switch`
in `compileFormat` maps each recognized token to one of these; `strE` is
`makeStringEmitter`, `headerE` is `makeHeaderEmitter`. -/
inductive Emitter where
  | strE (s : String)
  | beginApache
  | beginEpoch
  | beginISO8601
  | bytesE
  | clientE
  | clientIPE
  | clientPortE
  | durationE
  | endApache
  | endEpoch
  | endISO8601
  | errorE
  | methodE
  | protoE
  | statusE
  | statusTextE
  | uriE
  | headerE (name : String)
  deriving DecidableEq

/-- What one emitter appends to the log line, translated from the emitter
functions of src/v2/log.go (there the capture object's fields carry the
spelling `responseStatus` / `responseError` / `requestHeaders`; this
development uses the spelling of the part_024 revision the supervisor
claims cite: `status` / `error` / `loggedRequestHeaders` — same logical
fields). -/
def emit (e : Emitter) (grw : responseWriter) (r : Request) : String :=
  match e with
  | .strE s => s
  | .beginApache => formatApacheTime grw.beginT
  | .beginEpoch => toString grw.beginT
  | .beginISO8601 => formatISO8601 grw.beginT
  | .bytesE => toString grw.bytesWritten
  | .clientE => r.remoteAddr
  | .clientIPE => clientIPEmitter r.remoteAddr
  | .clientPortE => clientPortEmitter r.remoteAddr
  | .durationE => formatDuration grw.beginT grw.endT
  | .endApache => formatApacheTime grw.endT
  | .endEpoch => toString grw.endT
  | .endISO8601 => formatISO8601 grw.endT
  | .errorE => grw.error
  | .methodE => r.method
  | .protoE => r.proto
  | .statusE => toString grw.status
  | .statusTextE => statusText grw.status
  | .uriE => r.requestURI
  | .headerE name => headerGet grw.loggedRequestHeaders name

/-- The token table of `compileFormat` (src/v2/log.go lines 97-131):
`some` for the built-in fields, `none` falls through to the `http-` /
unknown-token default. -/
def resolveToken (tok : String) : Option Emitter :=
  if tok = "begin" then some .beginApache
  else if tok = "begin-epoch" then some .beginEpoch
  else if tok = "begin-iso8601" then some .beginISO8601
  else if tok = "bytes" then some .bytesE
  else if tok = "client" then some .clientE
  else if tok = "client-ip" then some .clientIPE
  else if tok = "client-port" then some .clientPortE
  else if tok = "duration" then some .durationE
  else if tok = "end" then some .endApache
  else if tok = "end-epoch" then some .endEpoch
  else if tok = "end-iso8601" then some .endISO8601
  else if tok = "error" then some .errorE
  else if tok = "method" then some .methodE
  else if tok = "proto" then some .protoE
  else if tok = "status" then some .statusE
  else if tok = "status-text" then some .statusTextE
  else if tok = "uri" then some .uriE
  else none

/-- `strings.HasPrefix` at the rune level (Go compares the leading bytes;
for the ASCII needle "http-" the byte-level and rune-level comparisons
agree). -/
def hasPrefixChars : List Char → List Char → Bool
  | _, [] => true
  | [], _ :: _ => false
  | c :: cs, p :: ps => c == p && hasPrefixChars cs ps

/-- Set-insertion for the referenced-header set `hm` (a Go map used as a
set; Go's map iteration order is unspecified, the model fixes insertion
order — no claim depends on the order). -/
def insertName (l : List String) (n : String) : List String :=
  if l.contains n then l else l ++ [n]

/-- Scanner state of `compileFormat`: the emitters built so far, the
literal buffer, the token buffer, the two-state flag, the escape flag and
the set of `http-` header names seen. -/
structure CompileState where
  emitters : List Emitter := []
  buf : List Char := []
  token : List Char := []
  capturingToken : Bool := false
  nextRuneEscaped : Bool := false
  hm : List String := []

/-- One step of the rune scanner of `compileFormat` (src/v2/log.go lines
68-156): an escaped rune goes verbatim into whichever buffer is active; a
backslash sets the escape flag; an open curly brace flushes the literal
buffer as a constant emitter and starts token capture; a close curly
brace resolves the token (built-in table, then the `http-` prefix rule,
then the permissive unknown-token passthrough that re-emits the token
wrapped in curly braces into the literal buffer); any other rune is
appended to the active buffer. -/
def compileStep (st : CompileState) (c : Char) : CompileState :=
  if st.nextRuneEscaped then
    if st.capturingToken then
      { st with token := st.token ++ [c], nextRuneEscaped := false }
    else
      { st with buf := st.buf ++ [c], nextRuneEscaped := false }
  else if c = '\\' then
    { st with nextRuneEscaped := true }
  else if c = '\x7b' then
    { st with emitters := st.emitters ++ [.strE (String.mk st.buf)],
              buf := [], capturingToken := true }
  else if c = '\x7d' then
    let tok := String.mk st.token
    let st' :=
      match resolveToken tok with
      | some e => { st with emitters := st.emitters ++ [e] }
      | none =>
        if hasPrefixChars st.token "http-".data then
          let header := String.mk (st.token.drop 5)
          { st with hm := insertName st.hm header,
                    emitters := st.emitters ++ [Emitter.headerE header] }
        else
          { st with buf := st.buf ++ ('\x7b' :: st.token) ++ ['\x7d'] }
    { st' with token := [], capturingToken := false }
  else
    if st.capturingToken then { st with token := st.token ++ [c] }
    else { st with buf := st.buf ++ [c] }

/-- `compileFormat` of src/v2/log.go: run the scanner over the template's
runes; a trailing unterminated open curly brace becomes literal text
including the brace; every compiled format ends with a newline-terminated
constant emitter; also return the referenced request-header names. -/
def compileFormat (format : String) : List Emitter × List String :=
  let st := format.data.foldl compileStep {}
  let buf := if st.capturingToken then st.buf ++ ('\x7b' :: st.token) else st.buf
  let buf := buf ++ ['\n']
  (st.emitters ++ [.strE (String.mk buf)], st.hm)

/-- Running the compiled emitters over the resolved capture object and the
request: the log line (the emitter loop of `New`, src/v2/gohm.go lines
222-225). -/
def renderLine (emitters : List Emitter) (grw : responseWriter) (r : Request) : String :=
  emitters.foldl (fun acc e => acc ++ emit e grw r) ""

/-- `DefaultLogFormat` of src/v2/log.go. -/
def DefaultLogFormat : String :=
  "\x7bclient-ip\x7d [\x7bbegin-iso8601\x7d] \"\x7bmethod\x7d \x7buri\x7d \x7bproto\x7d\" \x7bstatus\x7d \x7bbytes\x7d \x7bduration\x7d \x7berror\x7d"

/-- The `Counters` structure of src/unnamed/part_008: Go declares a fixed
`[6]uint64` array; the model uses an index function so that an
out-of-range status class stays expressible (Go would panic with an index
out of range for a status of 600 or more — the claims only exercise
classes 1-5). -/
structure Counters where
  counters : Nat → Nat

/-- A zero-valued `Counters`. -/
def zeroCounters : Counters := ⟨fun _ => 0⟩

/-- The two atomic adds of `New` (src/v2/gohm.go lines 200-203): bump the
"all" cell, then the cell of the status class, each wrapping at 2^64 as
`uint64` addition does.  For a status class of 0 both adds land on cell 0,
as in Go. -/
def incCounters (c : Counters) (statusClass : Nat) : Counters :=
  let afterAll : Nat → Nat :=
    fun i => if i = 0 then (c.counters 0 + 1) % U64 else c.counters i
  ⟨fun i => if i = statusClass then (afterAll statusClass + 1) % U64 else afterAll i⟩

/-- `Counters.GetAll`. -/
def Counters.GetAll (c : Counters) : Nat := c.counters 0

/-- `Counters.Get1xx`. -/
def Counters.Get1xx (c : Counters) : Nat := c.counters 1

/-- `Counters.Get2xx`. -/
def Counters.Get2xx (c : Counters) : Nat := c.counters 2

/-- `Counters.Get3xx`. -/
def Counters.Get3xx (c : Counters) : Nat := c.counters 3

/-- `Counters.Get4xx`. -/
def Counters.Get4xx (c : Counters) : Nat := c.counters 4

/-- `Counters.Get5xx`. -/
def Counters.Get5xx (c : Counters) : Nat := c.counters 5

/-- An `io.Writer` used as a log sink: `lines` are the successfully
written lines, `writeAttempts` counts every `Write` call, and when
`failMsg = some m` every write fails with `m` and appends nothing. -/
structure Writer where
  lines : List String := []
  writeAttempts : Nat := 0
  failMsg : Option String := none
  deriving DecidableEq

/-- One `Write` on a log sink, returning the error as Go does. -/
def writerWrite (w : Writer) (line : String) : Writer × Option String :=
  match w.failMsg with
  | none => ({ w with lines := w.lines ++ [line], writeAttempts := w.writeAttempts + 1 }, none)
  | some m => ({ w with writeAttempts := w.writeAttempts + 1 }, some m)

/-- The log-selection bit of `New` (src/v2/gohm.go line 221):
`1 << uint32(statusClass-1)` in `uint32` arithmetic.  For a status class
of 0 the Go subtraction wraps to 2^32-1 and the `uint32` shift by that
count yields 0, modelled by the explicit zero branch. -/
def logBit (statusClass : Nat) : Nat :=
  if statusClass = 0 then 0 else (1 <<< (statusClass - 1)) % U32

/-- The configuration surface of `gohm.Config` that the modelled paths
read: `AllowPanics`, whether `Counters` is non-nil, whether `LogWriter`
is non-nil (with the bitmask/format defaults of `New` already applied),
the bitmask value and the format string.  `Timeout`, `EscrowReader`,
`BufPool` and `Callback` shape when the outcome fires or add observers,
not the resolution logic modelled here. -/
structure Config where
  allowPanics : Bool := false
  hasCounters : Bool := false
  logEnabled : Bool := false
  logBitmask : Nat := 31
  logFormat : String := DefaultLogFormat

/-- The shared state a supervisor invocation starts from. -/
structure SupervisorState where
  sink : RealSink := {}
  counters : Counters := zeroCounters
  logWriter : Writer := {}
  stderrWriter : Writer := {}

/-- Everything observable after one request through the supervisor.
`repanic = some text` means the supervisor re-raised the handler's panic
on its own thread (`panic(error)` in the select), aborting before the
counter and log steps; `grw` then holds the abandoned capture object. -/
structure SupervisorResult where
  grw : responseWriter
  sink : RealSink
  counters : Counters
  logWriter : Writer
  stderrWriter : Writer
  repanic : Option String

/-- One request through `New` of src/v2/gohm.go: snapshot the logged
request headers (substituting "-" for an absent one) before the handler
starts, resolve the three-way race, and — unless the panic was re-raised
— bump the counters by status class (integer division by 100) and, when
logging is on and the class's bit is set in the `uint32` bitmask, render
the compiled emitters and write the line to the log sink, discarding the
write's error (`_, _ = config.LogWriter.Write(buf)`); the v2 supervisor
never touches the standard-error stream. -/
def superviseV2 (cfg : Config) (outcome : Outcome) (ops : List HandlerOp)
    (r : Request) (st : SupervisorState) (beginT now : Nat) : SupervisorResult :=
  let compiled := if cfg.logEnabled then compileFormat cfg.logFormat else ([], [])
  let grw0 : responseWriter := { beginT := beginT }
  let grw0 :=
    if compiled.2.length > 0 then
      { grw0 with loggedRequestHeaders :=
          compiled.2.map (fun name =>
            let value := headerGet r.headers name
            (name, if value = "" then "-" else value)) }
    else grw0
  match resolveRace cfg.allowPanics outcome ops grw0 st.sink now with
  | .error text =>
    { grw := runHandler ops grw0, sink := st.sink, counters := st.counters,
      logWriter := st.logWriter, stderrWriter := st.stderrWriter,
      repanic := some text }
  | .ok p =>
    let grw := p.1
    let statusClass := grw.status / 100
    let counters :=
      if cfg.hasCounters then incCounters st.counters statusClass else st.counters
    let logWriter :=
      if cfg.logEnabled && (cfg.logBitmask % U32) &&& logBit statusClass > 0 then
        (writerWrite st.logWriter (renderLine compiled.1 grw r)).1
      else st.logWriter
    { grw := grw, sink := p.2, counters := counters, logWriter := logWriter,
      stderrWriter := st.stderrWriter, repanic := none }

/-- The bit-selection switch of the legacy `LogStatusBitmaskWithFormat`
(src/log.go lines 183-195). -/
def v1StatusBit (status : Nat) : Nat :=
  match status / 100 with
  | 1 => 1
  | 2 => 2
  | 3 => 4
  | 4 => 8
  | 5 => 16
  | _ => 0

/-- The log-emission tail of the legacy `LogStatusBitmaskWithFormat`
(src/log.go lines 197-207): when the line is selected, write it to the
configured sink and, if that write fails, write the same line to the
standard-error stream instead of dropping it. -/
def logStatusBitmaskEmit (bitmask status : Nat) (line : String)
    (out stderrW : Writer) : Writer × Writer :=
  let bit := v1StatusBit status
  if bit = 0 ∨ (bitmask % U32) &&& bit > 0 then
    match writerWrite out line with
    | (out', none) => (out', stderrW)
    | (out', some _) => (out', (writerWrite stderrW line).1)
  else (out, stderrW)

/-! ### Helper lemmas -/

/-- Copying the capture object's headers only appends to the sink's header
list; every other sink field is untouched. -/
theorem addHeaders_spec (hs : List (String × String)) (w : RealSink) :
    addHeaders w hs = { w with headers := w.headers ++ hs } := by
  induction hs generalizing w with
  | nil => simp [addHeaders]
  | cons kv hs ih =>
    show addHeaders (sinkAddHeader w kv.1 kv.2) hs = _
    rw [ih]
    simp [sinkAddHeader]

/-- Unfolding one handler operation. -/
theorem runHandler_cons (op : HandlerOp) (ops : List HandlerOp) (grw : responseWriter) :
    runHandler (op :: ops) grw = runHandler ops (applyOp grw op) := rfl

/-- The capture object's pending status after the handler ran is the last
status it set, or the starting one when it never called `WriteHeader`. -/
theorem runHandler_status (ops : List HandlerOp) (grw : responseWriter) :
    (runHandler ops grw).status = (lastWH ops).getD grw.status := by
  induction ops generalizing grw with
  | nil => rfl
  | cons op ops ih =>
    rw [runHandler_cons, ih]
    cases h : lastWH ops with
    | some s => simp [lastWH, h]
    | none => cases op <;> simp [lastWH, h, applyOp]

/-- The capture object's body buffer after the handler ran is the starting
buffer followed by everything the handler passed to `Write`. -/
theorem runHandler_body (ops : List HandlerOp) (grw : responseWriter) :
    (runHandler ops grw).body = grw.body ++ concatWrites ops := by
  induction ops generalizing grw with
  | nil => simp [runHandler, concatWrites]
  | cons op ops ih =>
    rw [runHandler_cons, ih]
    cases op <;> simp [applyOp, concatWrites]

/-- Every `Write` attempt on the real sink bumps the attempt counter by
one, whether it succeeds or fails. -/
theorem sinkWrite_writeCalls (w : RealSink) (d : List Nat) :
    (sinkWrite w d).1.writeCalls = w.writeCalls + 1 := by
  cases h : w.failMsg <;> simp [sinkWrite, h]

/-- Flushing the capture object performs exactly one `Write` on the real
sink. -/
theorem handlerComplete_writeCalls (grw : responseWriter) (w : RealSink) (now : Nat) :
    (handlerComplete grw w now).2.writeCalls = w.writeCalls + 1 := by
  by_cases h : grw.status = 0 <;>
    cases hf : w.failMsg <;>
      simp [handlerComplete, addHeaders_spec, sinkWriteHeader, sinkWrite, h, hf]

/-- The direct error path performs exactly one `Write` on the real sink. -/
theorem httpError_writeCalls (w : RealSink) (t : String) (c : Nat) :
    (httpError w t c).writeCalls = w.writeCalls + 1 := by
  cases hf : w.failMsg <;>
    simp [httpError, sinkAddHeader, sinkWriteHeader, sinkWrite, hf]

/-! ### The claims -/

/-- C1: for every request whose downstream handler returns normally before
any timeout or cancellation (and over a live connection), the status code
delivered to the real response sink is the last status the handler set via
`WriteHeader` — or 200 when it never set one, the degenerate
`WriteHeader(0)` excluded, which the flush treats as unset — and the body
delivered to the sink is exactly the concatenation of the bytes the
handler passed to `Write`. -/
theorem handler_output_delivered (ap : Bool) (ops : List HandlerOp) (b now : Nat)
    (h : lastWH ops ≠ some 0) :
    deliveredStatus (raceSink (resolveRace ap .completed ops { beginT := b } {} now) {}) =
      (lastWH ops).getD 200
  ∧ sinkBody (raceSink (resolveRace ap .completed ops { beginT := b } {} now) {}) =
      concatWrites ops
  ∧ (raceRW (resolveRace ap .completed ops { beginT := b } {} now)).status =
      (lastWH ops).getD 200 := by
  have hst : (runHandler ops { beginT := b }).status = (lastWH ops).getD 0 :=
    runHandler_status ops { beginT := b }
  have hbd : (runHandler ops { beginT := b }).body = concatWrites ops := by
    simpa using runHandler_body ops { beginT := b }
  cases hlw : lastWH ops with
  | none =>
    rw [hlw] at hst
    simp [resolveRace, raceSink, raceRW, handlerComplete, addHeaders_spec,
      sinkWriteHeader, sinkWrite, deliveredStatus, sinkBody, hst, hbd, hlw]
  | some s =>
    have hs0 : s ≠ 0 := by intro h0; exact h (h0 ▸ hlw)
    rw [hlw] at hst
    simp [resolveRace, raceSink, raceRW, handlerComplete, addHeaders_spec,
      sinkWriteHeader, sinkWrite, deliveredStatus, sinkBody, hst, hbd, hlw, hs0]

/-- Witness for `handler_output_delivered`: a handler that sets 403 and
writes two chunks. -/
theorem handler_output_delivered_witness :
    lastWH [.writeHeader 403, .write [104], .write [105]] ≠ some 0
  ∧ (deliveredStatus (raceSink (resolveRace false .completed
        [.writeHeader 403, .write [104], .write [105]] { beginT := 7 } {} 9) {}) =
      (lastWH [.writeHeader 403, .write [104], .write [105]]).getD 200
     ∧ sinkBody (raceSink (resolveRace false .completed
          [.writeHeader 403, .write [104], .write [105]] { beginT := 7 } {} 9) {}) =
        concatWrites [.writeHeader 403, .write [104], .write [105]]
     ∧ (raceRW (resolveRace false .completed
          [.writeHeader 403, .write [104], .write [105]] { beginT := 7 } {} 9)).status =
        (lastWH [.writeHeader 403, .write [104], .write [105]]).getD 200) :=
  ⟨by decide, handler_output_delivered false
    [.writeHeader 403, .write [104], .write [105]] 7 9 (by decide)⟩

/-- C2: when the race resolves by context cancellation, the supervisor
substitutes a brand-new, empty capture object (keeping only the begin
time) for the one the still-running handler can reach and responds through
the error-path helper with status 503 and the context's cancellation
reason as the message; whatever the handler wrote, or goes on writing, to
the original capture object has no effect on the response or the logged
status — the resolution is the same for any two handler histories. -/
theorem cancellation_discards_handler_writes (ap : Bool) (e : String)
    (ops1 ops2 : List HandlerOp) (grw0 : responseWriter) (w : RealSink) (now : Nat) :
    resolveRace ap (.cancelled e) ops1 grw0 w now =
      resolveRace ap (.cancelled e) ops2 grw0 w now
  ∧ resolveRace ap (.cancelled e) ops1 grw0 w now =
      .ok ({ beginT := grw0.beginT, endT := now, error := e, status := 503 },
           httpError w e 503) :=
  ⟨rfl, rfl⟩

/-- C3: whichever way the race resolves, the real response sink receives
at most one `Write`: one from flushing the capture object on normal
completion, one from the direct error path on panic conversion or
cancellation, none when the panic is re-raised — never more, so the flush
and the error path never both fire and no flush happens twice. -/
theorem sink_written_at_most_once (ap : Bool) (o : Outcome) (ops : List HandlerOp)
    (grw0 : responseWriter) (w : RealSink) (now : Nat) :
    (raceSink (resolveRace ap o ops grw0 w now) w).writeCalls ≤ w.writeCalls + 1 := by
  cases o with
  | completed =>
    simp [resolveRace, raceSink, handlerComplete_writeCalls]
  | panicked t =>
    by_cases hap : ap <;>
      simp [resolveRace, raceSink, handlerError, hap, httpError_writeCalls]
  | cancelled e =>
    simp [resolveRace, raceSink, handlerError, httpError_writeCalls]

/-- A supervisor configuration with `AllowPanics`, counters and logging
all enabled, used to exhibit the bookkeeping skip on re-raise. -/
def cfgPanic : Config :=
  { allowPanics := true, hasCounters := true, logEnabled := true,
    logBitmask := 31, logFormat := "\x7bstatus\x7d" }

/-- C4 counterexample: with `AllowPanics = true` and a panicking handler,
the supervisor re-raises the panic on its own thread, but — contrary to
the claim — it does so before any bookkeeping: starting from zero
counters and an empty log, the counters are still zero and no log write
was even attempted when the panic propagates. -/
theorem panic_reraise_skips_bookkeeping :
    (superviseV2 cfgPanic (.panicked "boom") [] {} {} 0 0).repanic = some "boom"
  ∧ (superviseV2 cfgPanic (.panicked "boom") [] {} {} 0 0).counters.GetAll = 0
  ∧ (superviseV2 cfgPanic (.panicked "boom") [] {} {} 0 0).logWriter.writeAttempts = 0
  ∧ (superviseV2 cfgPanic (.panicked "boom") [] {} {} 0 0).logWriter.lines = [] :=
  ⟨rfl, rfl, rfl, rfl⟩

/-- C4 (amended): when the supervisor is configured with
`AllowPanics = true` and the downstream handler panics, the panic is
re-raised on the supervisor's own thread immediately upon winning the
race — before the status counters are updated and before any access-log
line is emitted, so the panicked request is neither counted nor logged,
and the real sink receives nothing; an outer recovery layer still
observes the panic. -/
theorem panic_reraised_before_bookkeeping (cfg : Config) (t : String)
    (ops : List HandlerOp) (r : Request) (st : SupervisorState) (b now : Nat)
    (h : cfg.allowPanics = true) :
    (superviseV2 cfg (.panicked t) ops r st b now).repanic = some t
  ∧ (superviseV2 cfg (.panicked t) ops r st b now).counters = st.counters
  ∧ (superviseV2 cfg (.panicked t) ops r st b now).logWriter = st.logWriter
  ∧ (superviseV2 cfg (.panicked t) ops r st b now).stderrWriter = st.stderrWriter
  ∧ (superviseV2 cfg (.panicked t) ops r st b now).sink = st.sink := by
  simp [superviseV2, resolveRace, h]

/-- Witness for `panic_reraised_before_bookkeeping` at a concrete
configuration and run. -/
theorem panic_reraised_before_bookkeeping_witness :
    cfgPanic.allowPanics = true
  ∧ ((superviseV2 cfgPanic (.panicked "x") [] {} {} 0 0).repanic = some "x"
     ∧ (superviseV2 cfgPanic (.panicked "x") [] {} {} 0 0).counters =
         ({} : SupervisorState).counters
     ∧ (superviseV2 cfgPanic (.panicked "x") [] {} {} 0 0).logWriter =
         ({} : SupervisorState).logWriter
     ∧ (superviseV2 cfgPanic (.panicked "x") [] {} {} 0 0).stderrWriter =
         ({} : SupervisorState).stderrWriter
     ∧ (superviseV2 cfgPanic (.panicked "x") [] {} {} 0 0).sink =
         ({} : SupervisorState).sink) :=
  ⟨rfl, panic_reraised_before_bookkeeping cfgPanic "x" [] {} {} 0 0 rfl⟩

/-- C5: when flushing the buffered response to the real sink fails with an
I/O error, the capture object's recorded status becomes 500 and its
recorded error message becomes that error's text, overriding whatever
status the handler had set; the sink accepted no bytes and the write is
not retried — exactly one `Write` was attempted. -/
theorem flush_error_overrides_status (ap : Bool) (ops : List HandlerOp)
    (grw0 : responseWriter) (w : RealSink) (e : String) (now : Nat)
    (h : w.failMsg = some e) :
    (raceRW (resolveRace ap .completed ops grw0 w now)).status = 500
  ∧ (raceRW (resolveRace ap .completed ops grw0 w now)).error = e
  ∧ (raceSink (resolveRace ap .completed ops grw0 w now) w).chunks = w.chunks
  ∧ (raceSink (resolveRace ap .completed ops grw0 w now) w).writeCalls =
      w.writeCalls + 1 := by
  by_cases h0 : (runHandler ops grw0).status = 0 <;>
    simp [resolveRace, raceRW, raceSink, handlerComplete, addHeaders_spec,
      sinkWriteHeader, sinkWrite, h, h0]

/-- Witness for `flush_error_overrides_status` on a broken connection. -/
theorem flush_error_overrides_status_witness :
    ({ failMsg := some "io" } : RealSink).failMsg = some "io"
  ∧ ((raceRW (resolveRace false .completed [.writeHeader 403, .write [1]] {}
        { failMsg := some "io" } 0)).status = 500
     ∧ (raceRW (resolveRace false .completed [.writeHeader 403, .write [1]] {}
          { failMsg := some "io" } 0)).error = "io"
     ∧ (raceSink (resolveRace false .completed [.writeHeader 403, .write [1]] {}
          { failMsg := some "io" } 0) { failMsg := some "io" }).chunks =
         ({ failMsg := some "io" } : RealSink).chunks
     ∧ (raceSink (resolveRace false .completed [.writeHeader 403, .write [1]] {}
          { failMsg := some "io" } 0) { failMsg := some "io" }).writeCalls =
         ({ failMsg := some "io" } : RealSink).writeCalls + 1) :=
  ⟨rfl, flush_error_overrides_status false [.writeHeader 403, .write [1]] {}
    { failMsg := some "io" } "io" 0 rfl⟩

/-- Sum of the five class buckets. -/
def bucketSum (c : Counters) : Nat :=
  c.Get1xx + c.Get2xx + c.Get3xx + c.Get4xx + c.Get5xx

/-- The counter updates of a sequence of requests through one supervisor:
each request bumps the "all" cell and the cell of its resolved status's
class (integer division by 100), as in src/v2/gohm.go lines 197-203. -/
def processStatuses (statuses : List Nat) : Counters :=
  statuses.foldl (fun c s => incCounters c (s / 100)) zeroCounters

/-- One in-range increment preserves the bucket-sum invariant: both the
"all" cell and the bucket sum grow by exactly one (no `uint64` wrap below
2^64 requests). -/
theorem incCounters_step (c : Counters) (cls k : Nat)
    (h1 : 1 ≤ cls) (h5 : cls ≤ 5) (hall : c.GetAll = k) (hsum : bucketSum c = k)
    (hk : k + 1 < U64) :
    (incCounters c cls).GetAll = k + 1 ∧ bucketSum (incCounters c cls) = k + 1 := by
  have hU : U64 = 18446744073709551616 := by norm_num [U64]
  rw [hU] at hk
  have h0 : c.counters 0 = k := hall
  have hs : c.counters 1 + c.counters 2 + c.counters 3 + c.counters 4
      + c.counters 5 = k := hsum
  interval_cases cls <;>
    constructor <;>
      simp only [incCounters, Counters.GetAll, bucketSum, Counters.Get1xx,
        Counters.Get2xx, Counters.Get3xx, Counters.Get4xx, Counters.Get5xx] <;>
      simp <;> rw [hU] <;> omega

/-- Folding in-range increments keeps "all" equal to the bucket sum and
advances both by the number of requests processed. -/
theorem processStatuses_aux (statuses : List Nat) :
    ∀ (c : Counters) (k : Nat),
      (∀ s ∈ statuses, 1 ≤ s / 100 ∧ s / 100 ≤ 5) →
      c.GetAll = k → bucketSum c = k → k + statuses.length < U64 →
      (statuses.foldl (fun c s => incCounters c (s / 100)) c).GetAll =
        k + statuses.length
    ∧ bucketSum (statuses.foldl (fun c s => incCounters c (s / 100)) c) =
        k + statuses.length := by
  induction statuses with
  | nil =>
    intro c k _ hall hsum _
    simpa using ⟨hall, hsum⟩
  | cons s ss ih =>
    intro c k hmem hall hsum hlt
    have hcls := hmem s (by simp)
    have hlen : k + 1 + ss.length < U64 := by
      simp only [List.length_cons] at hlt
      omega
    have hstep := incCounters_step c (s / 100) k hcls.1 hcls.2 hall hsum
      (by omega)
    have hrest := ih (incCounters c (s / 100)) (k + 1)
      (fun t ht => hmem t (by simp [ht])) hstep.1 hstep.2 hlen
    constructor
    · rw [List.foldl_cons]
      rw [hrest.1]
      simp only [List.length_cons]
      omega
    · rw [List.foldl_cons]
      rw [hrest.2]
      simp only [List.length_cons]
      omega

/-- C6: after any sequence of requests each resolving to a status of class
1xx through 5xx, every request bumped the "all" cell and exactly one class
bucket (chosen by integer division of the status by 100) once each, so
`Get1xx + Get2xx + Get3xx + Get4xx + Get5xx = GetAll = N` (for any
physically realizable count `N < 2^64`, below the `uint64` wrap). -/
theorem counters_class_sum (statuses : List Nat)
    (h : ∀ s ∈ statuses, 1 ≤ s / 100 ∧ s / 100 ≤ 5)
    (hlen : statuses.length < U64) :
    (processStatuses statuses).Get1xx + (processStatuses statuses).Get2xx
      + (processStatuses statuses).Get3xx + (processStatuses statuses).Get4xx
      + (processStatuses statuses).Get5xx = (processStatuses statuses).GetAll
  ∧ (processStatuses statuses).GetAll = statuses.length := by
  have haux := processStatuses_aux statuses zeroCounters 0 h rfl rfl
    (by simpa using hlen)
  have h1 : (processStatuses statuses).GetAll = statuses.length := by
    simpa [processStatuses] using haux.1
  have h2 : bucketSum (processStatuses statuses) = statuses.length := by
    simpa [processStatuses] using haux.2
  exact ⟨by rw [h1]; exact h2, h1⟩

/-- Witness for `counters_class_sum` on six requests spanning the five
classes. -/
theorem counters_class_sum_witness :
    (∀ s ∈ ([101, 200, 204, 301, 404, 503] : List Nat),
        1 ≤ s / 100 ∧ s / 100 ≤ 5)
  ∧ ([101, 200, 204, 301, 404, 503] : List Nat).length < U64
  ∧ ((processStatuses [101, 200, 204, 301, 404, 503]).Get1xx
      + (processStatuses [101, 200, 204, 301, 404, 503]).Get2xx
      + (processStatuses [101, 200, 204, 301, 404, 503]).Get3xx
      + (processStatuses [101, 200, 204, 301, 404, 503]).Get4xx
      + (processStatuses [101, 200, 204, 301, 404, 503]).Get5xx =
        (processStatuses [101, 200, 204, 301, 404, 503]).GetAll
     ∧ (processStatuses [101, 200, 204, 301, 404, 503]).GetAll =
        ([101, 200, 204, 301, 404, 503] : List Nat).length) :=
  ⟨by decide, by decide,
   counters_class_sum [101, 200, 204, 301, 404, 503] (by decide) (by decide)⟩

/-- C7: compiling the template "a \x7bbogus\x7d b \x7bstatus\x7d c" and
rendering it for a request resolved with status 403 yields exactly
"a \x7bbogus\x7d b 403 c" followed by a newline — a token matching
neither a built-in field nor the http- prefix is re-emitted verbatim
wrapped in curly braces rather than rejected — and every compiled format
ends with a newline-terminated constant emitter. -/
theorem unknown_token_passthrough :
    renderLine (compileFormat "a \x7bbogus\x7d b \x7bstatus\x7d c").1
        { status := 403 } {} = "a \x7bbogus\x7d b 403 c\n"
  ∧ ∀ format : String, ∃ cs : List Char,
      (compileFormat format).1.getLast? =
        some (.strE (String.mk (cs ++ ['\n']))) := by
  constructor
  · decide
  · intro format
    refine ⟨if (format.data.foldl compileStep {}).capturingToken then
        (format.data.foldl compileStep {}).buf
          ++ ('\x7b' :: (format.data.foldl compileStep {}).token)
      else (format.data.foldl compileStep {}).buf, ?_⟩
    simp [compileFormat]

/-- C8: compiling the template backslash-brace "client-ip" backslash-brace
and rendering it yields the literal text "\x7bclient-ip\x7d" followed by a
newline — the backslash escape forces the braces verbatim into the
literal buffer, so the token machinery never fires and the client's IP is
not substituted. -/
theorem escaped_braces_stay_literal :
    renderLine (compileFormat "\\\x7bclient-ip\\\x7d").1 {}
        { remoteAddr := "9.9.9.9:1" } = "\x7bclient-ip\x7d\n"
  ∧ "\x7bclient-ip\x7d\n" ≠ clientIPEmitter "9.9.9.9:1" ++ "\n" := by
  exact ⟨rfl, by decide⟩

/-- A v2 supervisor configuration whose log sink always fails. -/
def cfgLogFail : Config := { logEnabled := true, logFormat := "\x7bstatus\x7d" }

/-- Starting state with a permanently failing log writer. -/
def stLogFail : SupervisorState :=
  { logWriter := { failMsg := some "disk full" } }

/-- C9 counterexample: in the v2 supervisor (`New` of src/v2/gohm.go) a
failed access-log write is discarded — here a log write is attempted and
fails, yet nothing is written to the standard-error stream and the line
is lost; only the legacy `LogStatusBitmaskWithFormat` middleware of
src/log.go has the stderr fallback the claim describes. -/
theorem log_failure_dropped_by_supervisor :
    (superviseV2 cfgLogFail .completed [] {} stLogFail 0 0).logWriter.writeAttempts = 1
  ∧ (superviseV2 cfgLogFail .completed [] {} stLogFail 0 0).logWriter.failMsg =
      some "disk full"
  ∧ (superviseV2 cfgLogFail .completed [] {} stLogFail 0 0).logWriter.lines = []
  ∧ (superviseV2 cfgLogFail .completed [] {} stLogFail 0 0).stderrWriter.lines = [] :=
  ⟨rfl, rfl, rfl, rfl⟩

/-- C9 (amended): it is the legacy `LogStatusBitmaskWithFormat` handler
(src/log.go) that, whenever writing a selected access-log line to the
configured sink fails, writes that same line to the standard-error stream
instead of discarding it (the failed write itself having appended
nothing); the v2 supervisor ignores the log write's error. -/
theorem v1_log_falls_back_to_stderr (bitmask status : Nat) (line : String)
    (out stderrW : Writer) (m : String)
    (hfail : out.failMsg = some m) (hok : stderrW.failMsg = none)
    (hbit : v1StatusBit status = 0 ∨ (bitmask % U32) &&& v1StatusBit status > 0) :
    (logStatusBitmaskEmit bitmask status line out stderrW).2.lines =
      stderrW.lines ++ [line]
  ∧ (logStatusBitmaskEmit bitmask status line out stderrW).1.lines = out.lines := by
  simp [logStatusBitmaskEmit, writerWrite, hfail, hok, hbit]

/-- Witness for `v1_log_falls_back_to_stderr` on a failing log sink. -/
theorem v1_log_falls_back_to_stderr_witness :
    ({ failMsg := some "bad" } : Writer).failMsg = some "bad"
  ∧ ({} : Writer).failMsg = none
  ∧ (v1StatusBit 503 = 0 ∨ (31 % U32) &&& v1StatusBit 503 > 0)
  ∧ ((logStatusBitmaskEmit 31 503 "L" { failMsg := some "bad" } {}).2.lines =
       ({} : Writer).lines ++ ["L"]
     ∧ (logStatusBitmaskEmit 31 503 "L" { failMsg := some "bad" } {}).1.lines =
       ({ failMsg := some "bad" } : Writer).lines) :=
  ⟨rfl, rfl, Or.inr (by decide),
   v1_log_falls_back_to_stderr 31 503 "L" { failMsg := some "bad" } {} "bad"
     rfl rfl (Or.inr (by decide))⟩

/-- C10 counterexample: the claim's final clause — a remote address with
no colon is emitted unchanged — fails: "[abc]" contains no colon, yet the
bracket-stripping step of `clientIPEmitter` still fires and the code
emits "abc". -/
theorem clientip_no_colon_still_strips_brackets :
    ("[abc]".data.all (fun c => c != ':')) = true
  ∧ clientIPEmitter "[abc]" = "abc"
  ∧ clientIPEmitter "[abc]" ≠ "[abc]" :=
  ⟨by decide, by decide, by decide⟩

/-- If a character occurs nowhere in the list, its last index is `none`. -/
theorem lastIndexChar_eq_none (l : List Char) (ch : Char)
    (h : ∀ c ∈ l, c ≠ ch) : lastIndexChar l ch = none := by
  induction l with
  | nil => rfl
  | cons x xs ih =>
    have hx : x ≠ ch := h x (by simp)
    have hxs : lastIndexChar xs ch = none :=
      ih (fun c hc => h c (List.mem_cons_of_mem _ hc))
    simp [lastIndexChar, hxs, hx]

/-- C10 (amended): the \x7bclient-ip\x7d emitter removes the suffix
starting at the last colon and then removes one enclosing pair of square
brackets when the remaining value is longer than two characters and has
both, so "1.2.3.4:1234" renders as "1.2.3.4" and "[::1]:8080" renders as
"::1"; a remote address containing no colon skips only the suffix
removal — the bracket-stripping rule still applies to it. -/
theorem clientip_strips_port_then_brackets (addr : String)
    (h : ∀ c ∈ addr.data, c ≠ ':') :
    clientIPEmitter addr = String.mk (stripBrackets addr.data)
  ∧ clientIPEmitter "1.2.3.4:1234" = "1.2.3.4"
  ∧ clientIPEmitter "[::1]:8080" = "::1" := by
  refine ⟨?_, by decide, by decide⟩
  simp [clientIPEmitter, stripPort, lastIndexChar_eq_none addr.data ':' h]

/-- Witness for `clientip_strips_port_then_brackets` at a colon-free
bracket-enclosed address. -/
theorem clientip_strips_port_then_brackets_witness :
    (∀ c ∈ "[abc]".data, c ≠ ':')
  ∧ (clientIPEmitter "[abc]" = String.mk (stripBrackets "[abc]".data)
     ∧ clientIPEmitter "1.2.3.4:1234" = "1.2.3.4"
     ∧ clientIPEmitter "[::1]:8080" = "::1") :=
  ⟨by decide, clientip_strips_port_then_brackets "[abc]" (by decide)⟩

end Gohm
